import Mathlib

/-!
# Shallow embedding of the MinimalistCRM server core

This file embeds the authorization / multi-tenancy core of the CRM server
(`src/server/auth.ts`, `src/server/routes.ts`, data model from
`src/db/schema.ts`) as executable Lean definitions, and proves properties of
the HTTP/JSON behavior of each endpoint.

Modelling conventions:
* Database tables are Lean lists in insertion order; the serial
  `generatedAlwaysAsIdentity` id columns are modelled by per-table counters in
  the `DB` state.
* `timestamp` columns are omitted except `objects.createdAt`, which the list
  endpoint sorts by; no claim depends on the other timestamps.
* `jsonb` permission maps are modelled as records of `Bool`s: a key absent
  from the stored JSON reads as `false`, matching the JS strict comparisons
  `r.permissions.x === true`.
* The dynamic `fields` jsonb map of an object is modelled as an association
  list of string keys to string values (the only operations performed on it
  are `ILIKE` substring filters).
* Password hashing (`scrypt` with a random salt) is abstracted to an opaque
  injective-on-its-argument deterministic function `hashPassword`;
  `crypto.compare` is modelled as equality with that hash.  The claims under
  study do not depend on the hash's internal structure.
* Single-statement storage errors (e.g. a unique-constraint violation racing
  with another request) are outside the sequential model; each handler is a
  pure function from the database state, the session, and the request to a
  response and a new database state.
-/

namespace CRM

/-- Permission flags of a role (`roles.permissions` jsonb).  Absent keys are
modelled as `false`, matching `=== true` checks in the JS code. -/
structure Permissions where
  all : Bool
  create : Bool
  read : Bool
  update : Bool
  delete : Bool
  manageUsers : Bool
deriving DecidableEq

/-- A row of the `roles` table. -/
structure Role where
  id : Nat
  name : String
  permissions : Permissions
deriving DecidableEq

/-- A row of the `companies` table. -/
structure Company where
  id : Nat
  name : String
deriving DecidableEq

/-- A row of the `users` table.  `password` stores the credential produced by
`hashPassword`. -/
structure User where
  id : Nat
  username : String
  password : String
  companyId : Nat
deriving DecidableEq

/-- A row of the `user_roles` join table. -/
structure UserRole where
  userId : Nat
  roleId : Nat
deriving DecidableEq

/-- A row of the `objects` table.  `createdAt` is kept because
`GET /api/objects` sorts by it; `updatedAt` is never consulted by the server
logic and is omitted. -/
structure Object where
  id : Nat
  name : String
  type : String
  description : Option String
  fields : List (String × String)
  createdBy : Nat
  companyId : Nat
  createdAt : Nat
deriving DecidableEq

/-- The authenticated request user (`req.user`): the deserialized `users` row
with the caller's roles attached (`auth.ts`, `deserializeUser` /
`LocalStrategy`). -/
structure SessionUser where
  id : Nat
  username : String
  password : String
  companyId : Nat
  roles : List Role
deriving DecidableEq

/-- Persistent state: the relational tables plus the serial-id counters. -/
structure DB where
  companies : List Company
  users : List User
  roles : List Role
  userRoles : List UserRole
  objects : List Object
  nextCompanyId : Nat
  nextUserId : Nat
  nextRoleId : Nat
  nextObjectId : Nat
deriving DecidableEq

/-! ## JSON values

Response bodies are modelled as JSON trees.  `JsonVal`, `JsonList` and
`JsonProps` are a mutual inductive family (a JSON value, an array of values,
an object's key/value properties in insertion order) so that recursive
functions over them are structural. -/

mutual
inductive JsonVal where
  | str (s : String)
  | num (n : Nat)
  | bool (b : Bool)
  | null
  | arr (xs : JsonList)
  | obj (kvs : JsonProps)

inductive JsonList where
  | nil
  | cons (hd : JsonVal) (tl : JsonList)

inductive JsonProps where
  | nil
  | cons (k : String) (v : JsonVal) (tl : JsonProps)
end

/-- Convert a Lean list of JSON values into a `JsonList`. -/
def JsonList.ofList : List JsonVal → JsonList
  | [] => .nil
  | x :: xs => .cons x (JsonList.ofList xs)

/-- JS object rest-destructuring `const \x7b password: _, ...rest \x7d = v`:
drop every property with the given key. -/
def JsonProps.removeKey (k : String) : JsonProps → JsonProps
  | .nil => .nil
  | .cons k2 v tl =>
    if k2 == k then JsonProps.removeKey k tl
    else .cons k2 v (JsonProps.removeKey k tl)

/-- JS object spread `\x7b ...a, ...b \x7d` (property append). -/
def JsonProps.append : JsonProps → JsonProps → JsonProps
  | .nil, b => b
  | .cons k v tl, b => .cons k v (JsonProps.append tl b)

mutual
/-- Whether a JSON tree contains an object property with key `k`, at any
depth. -/
def JsonVal.hasKey (k : String) : JsonVal → Bool
  | .arr xs => JsonList.hasKeyL k xs
  | .obj kvs => JsonProps.hasKeyP k kvs
  | _ => false

/-- The `JsonVal.hasKey` over an array's elements. -/
def JsonList.hasKeyL (k : String) : JsonList → Bool
  | .nil => false
  | .cons x xs => JsonVal.hasKey k x || JsonList.hasKeyL k xs

/-- The `JsonVal.hasKey` over an object's properties. -/
def JsonProps.hasKeyP (k : String) : JsonProps → Bool
  | .nil => false
  | .cons k2 v tl => k2 == k || JsonVal.hasKey k v || JsonProps.hasKeyP k tl
end

/-- An HTTP response: status code plus JSON body (`res.status(..).json(..)`;
a bare `res.json(..)` is status 200). -/
structure Resp where
  status : Nat
  body : JsonVal

/-- The ubiquitous `\x7b message: string \x7d` JSON body. -/
def msgBody (m : String) : JsonVal :=
  .obj (.cons "message" (.str m) .nil)

/-! ## Serialization

`res.json(x)` serializes the JS value handed to it; these functions mirror the
exact property sets and insertion order the handlers build. -/

/-- JSON form of a `roles.permissions` map. -/
def permissionsToJson (p : Permissions) : JsonVal :=
  .obj (.cons "all" (.bool p.all)
       (.cons "create" (.bool p.create)
       (.cons "read" (.bool p.read)
       (.cons "update" (.bool p.update)
       (.cons "delete" (.bool p.delete)
       (.cons "manageUsers" (.bool p.manageUsers) .nil))))))

/-- JSON form of a `roles` row. -/
def roleToJson (r : Role) : JsonVal :=
  .obj (.cons "id" (.num r.id)
       (.cons "name" (.str r.name)
       (.cons "permissions" (permissionsToJson r.permissions) .nil)))

/-- JSON array of roles. -/
def rolesToJsonList (rs : List Role) : JsonList :=
  JsonList.ofList (rs.map roleToJson)

/-- The properties of a serialized `users` row, in column order.  Note the
stored `password` hash is one of them; handlers that strip it do so with
`JsonProps.removeKey`. -/
def userRowProps (u : User) : JsonProps :=
  .cons "id" (.num u.id)
  (.cons "username" (.str u.username)
  (.cons "password" (.str u.password)
  (.cons "companyId" (.num u.companyId) .nil)))

/-- The properties of the serialized `req.user` (user row plus attached
`roles`, as built by `deserializeUser` / the local strategy). -/
def sessionUserProps (u : SessionUser) : JsonProps :=
  .cons "id" (.num u.id)
  (.cons "username" (.str u.username)
  (.cons "password" (.str u.password)
  (.cons "companyId" (.num u.companyId)
  (.cons "roles" (.arr (rolesToJsonList u.roles)) .nil))))

/-- JSON form of the dynamic `fields` map of an object. -/
def fieldsToJson (fs : List (String × String)) : JsonVal :=
  .obj (fs.foldr (fun kv acc => JsonProps.cons kv.1 (.str kv.2) acc) .nil)

/-- JSON form of an `objects` row. -/
def objectToJson (o : Object) : JsonVal :=
  .obj (.cons "id" (.num o.id)
       (.cons "name" (.str o.name)
       (.cons "type" (.str o.type)
       (.cons "description" (match o.description with
          | some d => .str d
          | none => .null)
       (.cons "fields" (fieldsToJson o.fields)
       (.cons "createdBy" (.num o.createdBy)
       (.cons "companyId" (.num o.companyId)
       (.cons "createdAt" (.num o.createdAt) .nil))))))))

/-! ## auth.ts: helpers -/

/-- The `crypto.hash` (scrypt with random salt) abstracted to a deterministic
opaque encoding; no claim inspects the credential's structure. -/
def hashPassword (password : String) : String :=
  "scrypt$" ++ password

/-- The `getUserRoles(userId)`: join `user_roles` with `roles` on `roleId`.
Since `roles.id` is a primary key the inner join yields at most one role per
link row, which `List.find?` models. -/
def getUserRoles (db : DB) (userId : Nat) : List Role :=
  (db.userRoles.filter (fun ur => ur.userId == userId)).filterMap
    (fun ur => db.roles.find? (fun r => r.id == ur.roleId))

/-- The `ensureRoleExists(name, permissions)`: get-or-create a role by its unique
name.  Returns the role together with the (possibly extended) database. -/
def ensureRoleExists (db : DB) (name : String) (perms : Permissions) :
    Role × DB :=
  match db.roles.find? (fun r => r.name == name) with
  | some r => (r, db)
  | none =>
    let r : Role := { id := db.nextRoleId, name := name, permissions := perms }
    (r, { db with roles := db.roles ++ [r], nextRoleId := db.nextRoleId + 1 })

/-- The permission map `POST /api/auth/register` passes to
`ensureRoleExists("admin", ...)`. -/
def adminPermissions : Permissions :=
  { all := true, create := true, read := true, update := true, delete := true,
    manageUsers := true }

/-- The permission map `POST /api/auth/register` passes to
`ensureRoleExists("user", ...)`; the JS literal has no `all` / `manageUsers`
keys, which read as `false`. -/
def userPermissions : Permissions :=
  { all := false, create := true, read := true, update := true, delete := true,
    manageUsers := false }

/-- The `req.user?.roles?.some(r => r.name === "admin")`, the admin-name gate
shared verbatim by `GET /api/roles`, `POST /api/users/:userId/roles` and
`GET /api/users` (and by `checkRole("admin")`). -/
def sessionHasAdminRole : Option SessionUser → Bool
  | some u => u.roles.any (fun r => r.name == "admin")
  | none => false

/-! ## auth.ts: authentication routes -/

/-- Body of `POST /api/auth/register`. -/
structure RegisterBody where
  username : String
  password : String
  companyName : String
deriving DecidableEq

/-- The `POST /api/auth/register` (auth.ts).  Duplicate username check, then:
insert a fresh company (the supplied name is never matched against existing
companies), get-or-create the `admin` and `user` roles, insert the user,
count the users of the fresh company, assign `admin` if that count is 1 and
`user` otherwise, and respond with the new user (password stripped, roles
attached). -/
def register (db : DB) (b : RegisterBody) : Resp × DB :=
  match db.users.find? (fun u => u.username == b.username) with
  | some _ =>
    ({ status := 400, body := msgBody "Username already exists" }, db)
  | none =>
    let company : Company := { id := db.nextCompanyId, name := b.companyName }
    let db1 : DB := { db with companies := db.companies ++ [company],
                              nextCompanyId := db.nextCompanyId + 1 }
    let er1 := ensureRoleExists db1 "admin" adminPermissions
    let adminRole := er1.1
    let er2 := ensureRoleExists er1.2 "user" userPermissions
    let userRole := er2.1
    let db3 := er2.2
    let newUser : User := { id := db3.nextUserId, username := b.username,
                            password := hashPassword b.password,
                            companyId := company.id }
    let db4 : DB := { db3 with users := db3.users ++ [newUser],
                               nextUserId := db3.nextUserId + 1 }
    let companyUsers := db4.users.filter (fun u => u.companyId == company.id)
    let roleToAssign := if companyUsers.length == 1 then adminRole else userRole
    let db5 : DB := { db4 with
      userRoles := db4.userRoles ++ [⟨newUser.id, roleToAssign.id⟩] }
    let rolesList := getUserRoles db5 newUser.id
    let userJson : JsonProps :=
      ((userRowProps newUser).append
        (.cons "roles" (.arr (rolesToJsonList rolesList)) .nil)).removeKey
        "password"
    ({ status := 200,
       body := .obj (.cons "message" (.str "Registration successful")
                    (.cons "user" (.obj userJson) .nil)) }, db5)

/-! The successful branch of `register` as named steps (one per source
statement), used to reason about it compositionally; `register`'s `none`
branch is definitionally the composition of these. -/

/-- The company row inserted by a successful registration. -/
def regCompany (db : DB) (b : RegisterBody) : Company :=
  ⟨db.nextCompanyId, b.companyName⟩

/-- State after the company insert. -/
def regDb1 (db : DB) (b : RegisterBody) : DB :=
  { db with companies := db.companies ++ [regCompany db b],
            nextCompanyId := db.nextCompanyId + 1 }

/-- The role returned by `ensureRoleExists("admin", ...)`. -/
def regAdminRole (db : DB) (b : RegisterBody) : Role :=
  (ensureRoleExists (regDb1 db b) "admin" adminPermissions).1

/-- State after `ensureRoleExists("admin", ...)`. -/
def regDb2 (db : DB) (b : RegisterBody) : DB :=
  (ensureRoleExists (regDb1 db b) "admin" adminPermissions).2

/-- The role returned by `ensureRoleExists("user", ...)`. -/
def regUserRole (db : DB) (b : RegisterBody) : Role :=
  (ensureRoleExists (regDb2 db b) "user" userPermissions).1

/-- State after `ensureRoleExists("user", ...)`. -/
def regDb3 (db : DB) (b : RegisterBody) : DB :=
  (ensureRoleExists (regDb2 db b) "user" userPermissions).2

/-- The user row inserted by a successful registration. -/
def regNewUser (db : DB) (b : RegisterBody) : User :=
  { id := (regDb3 db b).nextUserId, username := b.username,
    password := hashPassword b.password, companyId := (regCompany db b).id }

/-- State after the user insert. -/
def regDb4 (db : DB) (b : RegisterBody) : DB :=
  { regDb3 db b with users := (regDb3 db b).users ++ [regNewUser db b],
                     nextUserId := (regDb3 db b).nextUserId + 1 }

/-- The `companyUsers` count query: users of the fresh company. -/
def regCompanyUsers (db : DB) (b : RegisterBody) : List User :=
  (regDb4 db b).users.filter (fun u => u.companyId == (regCompany db b).id)

/-- The `companyUsers.length === 1 ? adminRole : userRole`. -/
def regRoleToAssign (db : DB) (b : RegisterBody) : Role :=
  if (regCompanyUsers db b).length == 1 then regAdminRole db b
  else regUserRole db b

/-- Final state of a successful registration (after the role-link insert). -/
def regDb5 (db : DB) (b : RegisterBody) : DB :=
  { regDb4 db b with
    userRoles := (regDb4 db b).userRoles ++
      [⟨(regNewUser db b).id, (regRoleToAssign db b).id⟩] }

/-- The `POST /api/auth/login` (auth.ts): the local strategy looks the user up by
username and compares credentials; on success the response carries the user
(password stripped, roles attached). -/
def login (db : DB) (username password : String) : Resp :=
  match db.users.find? (fun u => u.username == username) with
  | none => { status := 401, body := msgBody "Invalid username or password" }
  | some u =>
    if u.password == hashPassword password then
      let kvs : JsonProps :=
        ((userRowProps u).append
          (.cons "roles" (.arr (rolesToJsonList (getUserRoles db u.id)))
            .nil)).removeKey "password"
      { status := 200,
        body := .obj (.cons "message" (.str "Login successful")
                     (.cons "user" (.obj kvs) .nil)) }
    else { status := 401, body := msgBody "Invalid username or password" }

/-- The `POST /api/auth/logout` (auth.ts): `req.logout` succeeds (also without a
session) and the handler responds 200. -/
def logout : Resp :=
  { status := 200, body := msgBody "Logged out successfully" }

/-- The `GET /api/user` (auth.ts): 401 when `req.user` is absent, otherwise the
session user with the password property destructured away. -/
def getUser : Option SessionUser → Resp
  | none => { status := 401, body := msgBody "Not authenticated" }
  | some u =>
    { status := 200, body := .obj ((sessionUserProps u).removeKey "password") }

/-! ## auth.ts: role / user management routes

These handlers are registered inside `setupAuth`, i.e. BEFORE the `/api/*`
auth middleware, and therefore shadow the identical paths later registered in
`routes.ts` (Express dispatches to the first registered match).  An
unauthenticated request reaches them with `req.user` undefined and the
optional-chained admin gate fails, yielding 403. -/

/-- The `GET /api/roles` (auth.ts): admin-name gate, then all roles (the `roles`
table is global, not company-scoped). -/
def getRolesRoute (db : DB) (sess : Option SessionUser) : Resp :=
  if !sessionHasAdminRole sess then
    { status := 403, body := msgBody "Forbidden" }
  else
    { status := 200, body := .arr (rolesToJsonList db.roles) }

/-- The `POST /api/users/:userId/roles` (auth.ts): admin-name gate, then the
target user must exist and be in the caller's company (else 403), then the
join row is inserted. -/
def assignRoleRoute (db : DB) (sess : Option SessionUser)
    (userIdParam roleIdBody : Nat) : Resp × DB :=
  match sess with
  | none => ({ status := 403, body := msgBody "Forbidden" }, db)
  | some u =>
    if !(u.roles.any (fun r => r.name == "admin")) then
      ({ status := 403, body := msgBody "Forbidden" }, db)
    else
      match db.users.find? (fun x => x.id == userIdParam) with
      | none => ({ status := 403, body := msgBody "Forbidden" }, db)
      | some target =>
        if target.companyId != u.companyId then
          ({ status := 403, body := msgBody "Forbidden" }, db)
        else
          ({ status := 200, body := msgBody "Role assigned successfully" },
           { db with userRoles := db.userRoles ++ [⟨userIdParam, roleIdBody⟩] })

/-- The `GET /api/users` (auth.ts): admin-name gate, then the caller-company user
rows each spread together with their roles.  Nothing strips the `password`
column from these rows. -/
def getUsersRoute (db : DB) (sess : Option SessionUser) : Resp :=
  match sess with
  | none => { status := 403, body := msgBody "Forbidden" }
  | some u =>
    if !(u.roles.any (fun r => r.name == "admin")) then
      { status := 403, body := msgBody "Forbidden" }
    else
      let companyUsers := db.users.filter (fun x => x.companyId == u.companyId)
      { status := 200,
        body := .arr (JsonList.ofList (companyUsers.map (fun x =>
          .obj ((userRowProps x).append
            (.cons "roles" (.arr (rolesToJsonList (getUserRoles db x.id)))
              .nil))))) }

/-! ## routes.ts: object routes

The drizzle select builder holds a SINGLE where slot and a single order-by
slot: `query.where(p)` assigns `config.where = p`, so a second `.where` call
REPLACES the earlier predicate instead of conjoining it.  The builder model
below reproduces that assignment semantics. -/

/-- Case-insensitive substring test: `column ILIKE '%pat%'`. -/
def leadMatch (pat l : List Char) : Bool :=
  match pat, l with
  | [], _ => true
  | _ :: _, [] => false
  | p :: ps, c :: cs => p == c && leadMatch ps cs

/-- Whether `pat` occurs contiguously inside `l`. -/
def containsSub (pat : List Char) : List Char → Bool
  | [] => pat.isEmpty
  | c :: cs => leadMatch pat (c :: cs) || containsSub pat cs

/-- The `column ILIKE '%pat%'` on a non-null text column. -/
def ilikeContains (hay pat : String) : Bool :=
  containsSub (pat.toList.map Char.toLower) (hay.toList.map Char.toLower)

/-- The `or(ilike(name), ilike(type), ilike(description))` search predicate;
a NULL `description` makes that disjunct false. -/
def searchPred (s : String) (o : Object) : Bool :=
  ilikeContains o.name s || ilikeContains o.type s ||
    (match o.description with
     | some d => ilikeContains d s
     | none => false)

/-- The raw per-field filter `fields->>'key' ILIKE '%value%'`: NULL (absent
key) is not matched. -/
def fieldPred (key value : String) (o : Object) : Bool :=
  match o.fields.find? (fun kv => kv.1 == key) with
  | some kv => ilikeContains kv.2 value
  | none => false

/-- Sort column selected by the `sortBy` switch. -/
inductive SortKey where
  | byName
  | byType
  | byCreatedAt
deriving DecidableEq

/-- The drizzle select builder state: one where slot, one order-by slot
(`desc = true` for descending). -/
structure SelectBuilder where
  whereClause : Option (Object → Bool)
  orderSpec : Option (SortKey × Bool)

/-- The `query.where(p)`: assigns the builder's single where slot, replacing any
earlier predicate. -/
def SelectBuilder.setWhere (b : SelectBuilder) (p : Object → Bool) :
    SelectBuilder :=
  { b with whereClause := some p }

/-- The `query.orderBy(..)`: assigns the order-by slot. -/
def SelectBuilder.setOrderBy (b : SelectBuilder) (o : SortKey × Bool) :
    SelectBuilder :=
  { b with orderSpec := some o }

/-- The order chosen by the handler's `sortBy` switch: a recognized `sortBy`
uses `sortOrder === 'desc' ? desc : asc`; an empty/absent/unknown `sortBy`
falls back to `createdAt` descending. -/
def chosenOrder (sortByQ sortOrderQ : Option String) : SortKey × Bool :=
  match sortByQ with
  | some sb =>
    if sb == "" then (.byCreatedAt, true)
    else
      let descFlag := sortOrderQ == some "desc"
      if sb == "name" then (.byName, descFlag)
      else if sb == "type" then (.byType, descFlag)
      else if sb == "createdAt" then (.byCreatedAt, descFlag)
      else (.byCreatedAt, true)
  | none => (.byCreatedAt, true)

/-- Comparison used by `ORDER BY` for the chosen key and direction. -/
def orderLe (k : SortKey) (descFlag : Bool) (a b : Object) : Bool :=
  let c : Ordering :=
    match k with
    | .byName => compare a.name b.name
    | .byType => compare a.type b.type
    | .byCreatedAt => compare a.createdAt b.createdAt
  match descFlag, c with
  | false, .gt => false
  | false, _ => true
  | true, .lt => false
  | true, _ => true

/-- Stable insertion of one row into an ordered list. -/
def insertOrdered (le : Object → Object → Bool) (x : Object) :
    List Object → List Object
  | [] => [x]
  | y :: ys => if le x y then x :: y :: ys else y :: insertOrdered le x ys

/-- Stable sort of the result rows (`ORDER BY`). -/
def orderRows (k : SortKey) (descFlag : Bool) (rows : List Object) :
    List Object :=
  rows.foldr (insertOrdered (orderLe k descFlag)) []

/-- Execute the built select: apply the (single) where predicate, then the
(single) order-by. -/
def runSelect (rows : List Object) (b : SelectBuilder) : List Object :=
  let filtered :=
    match b.whereClause with
    | some p => rows.filter p
    | none => rows
  match b.orderSpec with
  | some (k, d) => orderRows k d filtered
  | none => filtered

/-- Query string of `GET /api/objects`.  `fields` stands for the
already-JSON-parsed field-filter map. -/
structure ObjectsQuery where
  search : Option String
  type : Option String
  fields : Option (List (String × String))
  sortBy : Option String
  sortOrder : Option String

/-- The row set computed by `GET /api/objects` for an authenticated caller:
company scope is installed as a where clause first, then each truthy filter
REINSTALLS the where slot (drizzle assignment semantics), and the order-by is
applied. -/
def getObjectsRows (db : DB) (u : SessionUser) (q : ObjectsQuery) :
    List Object :=
  let b : SelectBuilder := SelectBuilder.setWhere
    { whereClause := none, orderSpec := none }
    (fun o => o.companyId == u.companyId)
  let b :=
    match q.search with
    | some s => if s != "" then b.setWhere (searchPred s) else b
    | none => b
  let b :=
    match q.type with
    | some t => if t != "" && t != "_all" then b.setWhere (fun o => o.type == t)
                else b
    | none => b
  let b :=
    match q.fields with
    | some ffs =>
      ffs.foldl (fun (bb : SelectBuilder) (kv : String × String) =>
        if kv.2 != "" then bb.setWhere (fieldPred kv.1 kv.2) else bb) b
    | none => b
  let b := b.setOrderBy (chosenOrder q.sortBy q.sortOrder)
  runSelect db.objects b

/-- The `GET /api/objects` (routes.ts): 401 when unauthenticated, else the rows
of `getObjectsRows` serialized. -/
def getObjects (db : DB) (sess : Option SessionUser) (q : ObjectsQuery) :
    Resp :=
  match sess with
  | none => { status := 401, body := msgBody "Unauthorized" }
  | some u =>
    { status := 200,
      body := .arr (JsonList.ofList ((getObjectsRows db u q).map objectToJson)) }

/-- First-occurrence deduplication (`[...new Set([...])]` keeps the first
occurrence of each element, in insertion order). -/
def dedupFirst : List String → List String
  | [] => []
  | x :: xs => x :: dedupFirst (xs.filter (fun y => y != x))
termination_by l => l.length
decreasing_by
  simp only [List.length_cons]
  exact Nat.lt_succ_of_le (List.length_filter_le _ _)

/-- The `GET /api/object-types` (routes.ts): distinct types of the caller's
company, unioned with the suggested seed list. -/
def getObjectTypes (db : DB) (sess : Option SessionUser) : Resp :=
  match sess with
  | none => { status := 401, body := msgBody "Unauthorized" }
  | some u =>
    let existingTypes :=
      dedupFirst (((db.objects.filter (fun o => o.companyId == u.companyId)).map
        (fun o => o.type)))
    let suggestedTypes := ["Contact", "Lead", "Company", "Project", "Task"]
    let allTypes := dedupFirst (existingTypes ++ suggestedTypes)
    { status := 200,
      body := .arr (JsonList.ofList (allTypes.map (fun t => .str t))) }

/-- Body of `POST /api/objects`.  `companyId` and `createdBy` may be supplied
by the client but the handler's spread
`\x7b ...req.body, createdBy: .., companyId: .. \x7d` overwrites them. -/
structure InsertObjectBody where
  name : String
  type : String
  description : Option String
  fields : List (String × String)
  companyId : Option Nat
  createdBy : Option Nat
deriving DecidableEq

/-- The `POST /api/objects` (routes.ts): authentication, then the create/all
permission gate over the caller's roles, then the insert with `createdBy` and
`companyId` taken from the caller (spread order ignores the client-supplied
values). -/
def postObjects (db : DB) (sess : Option SessionUser) (b : InsertObjectBody)
    (now : Nat) : Resp × DB :=
  match sess with
  | none => ({ status := 401, body := msgBody "Unauthorized" }, db)
  | some u =>
    if !(u.roles.any (fun r => r.permissions.create || r.permissions.all)) then
      ({ status := 403, body := msgBody "Forbidden" }, db)
    else
      let o : Object := { id := db.nextObjectId, name := b.name, type := b.type,
                          description := b.description, fields := b.fields,
                          createdBy := u.id, companyId := u.companyId,
                          createdAt := now }
      ({ status := 200, body := objectToJson o },
       { db with objects := db.objects ++ [o],
                 nextObjectId := db.nextObjectId + 1 })

/-- Partial body of `PUT /api/objects/:id`; `update(objects).set(req.body)`
writes every column the body supplies, including `companyId` and
`createdBy`. -/
structure PatchBody where
  name : Option String
  type : Option String
  description : Option String
  fields : Option (List (String × String))
  companyId : Option Nat
  createdBy : Option Nat
deriving DecidableEq

/-- Apply `set(req.body)` to one row: every supplied column is overwritten. -/
def applyPatch (p : PatchBody) (o : Object) : Object :=
  { o with
    name := p.name.getD o.name
    type := p.type.getD o.type
    description := match p.description with
      | some d => some d
      | none => o.description
    fields := p.fields.getD o.fields
    companyId := p.companyId.getD o.companyId
    createdBy := p.createdBy.getD o.createdBy }

/-- The `PUT /api/objects/:id` (routes.ts): authentication, the update/all
permission gate, a re-fetch by id AND the caller's companyId (404 when no row
matches), then `update ... set(req.body) where id = :id` (the update's own
where clause carries no company filter) and the updated row is returned. -/
def putObject (db : DB) (sess : Option SessionUser) (idParam : Nat)
    (p : PatchBody) : Resp × DB :=
  match sess with
  | none => ({ status := 401, body := msgBody "Unauthorized" }, db)
  | some u =>
    if !(u.roles.any (fun r => r.permissions.update || r.permissions.all)) then
      ({ status := 403, body := msgBody "Forbidden" }, db)
    else
      match db.objects.find?
          (fun o => o.id == idParam && o.companyId == u.companyId) with
      | none => ({ status := 404, body := msgBody "Object not found" }, db)
      | some _ =>
        let newObjects := db.objects.map
          (fun o => if o.id == idParam then applyPatch p o else o)
        let updatedResp : Resp :=
          match newObjects.find? (fun o => o.id == idParam) with
          | some updated => { status := 200, body := objectToJson updated }
          | none => { status := 200, body := .null }
        (updatedResp, { db with objects := newObjects })

/-- The `DELETE /api/objects/:id` (routes.ts): authentication, the delete/all
permission gate, the same re-fetch by id AND companyId (404 when no row
matches), then `delete ... where id = :id`. -/
def deleteObject (db : DB) (sess : Option SessionUser) (idParam : Nat) :
    Resp × DB :=
  match sess with
  | none => ({ status := 401, body := msgBody "Unauthorized" }, db)
  | some u =>
    if !(u.roles.any (fun r => r.permissions.delete || r.permissions.all)) then
      ({ status := 403, body := msgBody "Forbidden" }, db)
    else
      match db.objects.find?
          (fun o => o.id == idParam && o.companyId == u.companyId) with
      | none => ({ status := 404, body := msgBody "Object not found" }, db)
      | some _ =>
        ({ status := 200, body := msgBody "Object deleted successfully" },
         { db with objects := db.objects.filter (fun o => !(o.id == idParam)) })

/-! ## Request dispatch (Express registration order)

`registerRoutes` first runs `setupAuth`, which registers the auth routes and
the role/user management routes, and only THEN installs the `/api/*`
middleware that 401s unauthenticated requests; the object routes of
`routes.ts` come after that middleware.  Express dispatches to the first
registered match, so:
* the setupAuth handlers (login, register, logout, current user, roles,
  role-assignment, users) are reachable WITHOUT a session;
* the `routes.ts` duplicates of `GET /api/users`, `GET /api/roles` and
  `POST /api/users/:userId/roles` are shadowed and unreachable;
* the object routes sit behind the middleware, whose 401 response is
  identical to the handlers' own `isAuthenticated` 401, so the dispatcher
  delegates to them directly. -/

inductive ApiRequest where
  | authRegister (b : RegisterBody)
  | authLogin (username password : String)
  | authLogout
  | currentUser
  | listRoles
  | assignRole (userIdParam roleIdBody : Nat)
  | listUsers
  | listObjects (q : ObjectsQuery)
  | listObjectTypes
  | createObject (b : InsertObjectBody)
  | updateObject (idParam : Nat) (p : PatchBody)
  | removeObject (idParam : Nat)

/-- One request against the app: response plus resulting database state. -/
def handleRequest (db : DB) (sess : Option SessionUser) (now : Nat) :
    ApiRequest → Resp × DB
  | .authRegister b => register db b
  | .authLogin un pw => (login db un pw, db)
  | .authLogout => (logout, db)
  | .currentUser => (getUser sess, db)
  | .listRoles => (getRolesRoute db sess, db)
  | .assignRole uid rid => assignRoleRoute db sess uid rid
  | .listUsers => (getUsersRoute db sess, db)
  | .listObjects q => (getObjects db sess q, db)
  | .listObjectTypes => (getObjectTypes db sess, db)
  | .createObject b => postObjects db sess b now
  | .updateObject i p => putObject db sess i p
  | .removeObject i => deleteObject db sess i

/-! ## Reachable-state invariant -/

/-- Well-formedness of the identity counters: every stored company id, and
every company id referenced by a user, is below the `companies` serial
counter.  This holds of the empty database and is preserved by every
handler (the serial column only ever hands out fresh ids). -/
def WF (db : DB) : Prop :=
  (∀ c ∈ db.companies, c.id < db.nextCompanyId) ∧
  (∀ u ∈ db.users, u.companyId < db.nextCompanyId)

/-- Run a sequence of registration requests, keeping each resulting state
(failed registrations leave the state unchanged). -/
def runRegs (db : DB) (bs : List RegisterBody) : DB :=
  bs.foldl (fun d b => (register d b).2) db

/-! ## Concrete fixtures -/

/-- The empty database (all serial counters at 1). -/
def db0 : DB :=
  { companies := [], users := [], roles := [], userRoles := [], objects := [],
    nextCompanyId := 1, nextUserId := 1, nextRoleId := 1, nextObjectId := 1 }

/-- First registration of the spec's scenario: alice at company "Acme". -/
def regAlice : RegisterBody :=
  { username := "alice", password := "pw1", companyName := "Acme" }

/-- Second registration naming the SAME company "Acme". -/
def regBob : RegisterBody :=
  { username := "bob", password := "pw2", companyName := "Acme" }

/-- State after registering alice. -/
def st1 : DB := (register db0 regAlice).2

/-- State after additionally registering bob (companyName also "Acme"). -/
def st2 : DB := (register st1 regBob).2

/-- The bootstrap admin role row as created by the first registration. -/
def adminRoleRow : Role :=
  { id := 1, name := "admin", permissions := adminPermissions }

/-- The bootstrap user role row as created by the first registration. -/
def userRoleRow : Role :=
  { id := 2, name := "user", permissions := userPermissions }

/-- A company-1 object used by the C1 counterexample. -/
def objA : Object :=
  { id := 1, name := "Lead A", type := "Lead", description := none,
    fields := [], createdBy := 1, companyId := 1, createdAt := 0 }

/-- Database holding just `objA`. -/
def dbC1 : DB := { db0 with objects := [objA], nextObjectId := 2 }

/-- Authenticated company-1 caller holding the admin role. -/
def aliceSession : SessionUser :=
  { id := 1, username := "alice", password := hashPassword "pw1",
    companyId := 1, roles := [adminRoleRow] }

/-- A PUT body whose only property is `companyId: 2`. -/
def patchCompany : PatchBody :=
  { name := none, type := none, description := none, fields := none,
    companyId := some 2, createdBy := none }

/-- Company-1 object matching the search term "acme". -/
def objAcme1 : Object :=
  { id := 1, name := "acme widget", type := "Lead", description := none,
    fields := [], createdBy := 1, companyId := 1, createdAt := 5 }

/-- Company-2 object also matching "acme". -/
def objAcme2 : Object :=
  { id := 2, name := "acme corp", type := "Contact", description := none,
    fields := [], createdBy := 2, companyId := 2, createdAt := 9 }

/-- Two-tenant object catalog. -/
def dbC2 : DB := { db0 with objects := [objAcme1, objAcme2], nextObjectId := 3 }

/-- The `GET /api/objects?search=acme` with no other parameters. -/
def qSearchAcme : ObjectsQuery :=
  { search := some "acme", type := none, fields := none, sortBy := none,
    sortOrder := none }

/-- A stored user row (company 1) whose hash must never be serialized. -/
def carolUser : User :=
  { id := 1, username := "carol", password := hashPassword "pw", companyId := 1 }

/-- Database with carol as company-1 admin. -/
def dbC3 : DB :=
  { db0 with users := [carolUser], roles := [adminRoleRow],
             userRoles := [⟨1, 1⟩], nextUserId := 2, nextRoleId := 2 }

/-- Carol's session. -/
def carolSession : SessionUser :=
  { id := 1, username := "carol", password := hashPassword "pw",
    companyId := 1, roles := [adminRoleRow] }

/-- A second registration attempt re-using carol's username. -/
def regCarolDup : RegisterBody :=
  { username := "carol", password := "x", companyName := "Other" }

/-- Company A's object with id 5 (spec scenario for C4). -/
def objCompanyA : Object :=
  { id := 5, name := "Secret", type := "Lead", description := none,
    fields := [], createdBy := 1, companyId := 1, createdAt := 0 }

/-- Database holding only company A's object. -/
def dbC4 : DB := { db0 with objects := [objCompanyA], nextObjectId := 6 }

/-- Company B's caller, holding the bootstrap `user` role (which grants
update and delete). -/
def bobBSession : SessionUser :=
  { id := 2, username := "bobB", password := hashPassword "pw",
    companyId := 2, roles := [userRoleRow] }

/-- A role granting `all = true` but NOT named "admin". -/
def superRole : Role :=
  { id := 3, name := "superuser", permissions := adminPermissions }

/-- A caller whose only role is `superRole`: every permission flag, no role
named "admin". -/
def superSession : SessionUser :=
  { id := 3, username := "sam", password := hashPassword "pw",
    companyId := 1, roles := [superRole] }

/-- A create body that tries to smuggle in foreign `companyId`/`createdBy`
values. -/
def insertBodySpoof : InsertObjectBody :=
  { name := "N", type := "T", description := none, fields := [],
    companyId := some 99, createdBy := some 99 }

/-- A patch that renames the object and carries no `companyId` property. -/
def patchNameOnly : PatchBody :=
  { name := some "Renamed", type := none, description := none, fields := none,
    companyId := none, createdBy := none }

/-- Company-1 caller issuing the search query (roles are irrelevant for the
list endpoint). -/
def searcherSession : SessionUser :=
  { id := 1, username := "u1", password := hashPassword "p", companyId := 1,
    roles := [] }

/-! ## Helper lemmas -/

/-- A serialized role contains no `password` property. -/
theorem roleJson_no_password (r : Role) :
    JsonVal.hasKey "password" (roleToJson r) = false := rfl

/-- A serialized role list contains no `password` property. -/
theorem rolesJsonList_no_password (rs : List Role) :
    JsonList.hasKeyL "password" (rolesToJsonList rs) = false := by
  induction rs with
  | nil => rfl
  | cons r rs ih =>
    simp only [rolesToJsonList, List.map_cons, JsonList.ofList,
      JsonList.hasKeyL, roleJson_no_password, Bool.false_or]
    simpa [rolesToJsonList] using ih

/-- Users of companies that predate a fresh company id are filtered away. -/
theorem filter_companyId_nil (us : List User) (n : Nat)
    (h : ∀ u ∈ us, u.companyId < n) :
    us.filter (fun u => u.companyId == n) = [] := by
  induction us with
  | nil => rfl
  | cons a as ih =>
    have ha : (a.companyId == n) = false := by
      have := h a (by simp)
      simp [Nat.ne_of_lt this]
    simp [List.filter, ha, ih (fun u hu => h u (by simp [hu]))]

/-- Behavior of `ensureRoleExists`: the returned role carries the requested
name and is stored; no other table or counter is touched; existing roles are
kept. -/
theorem ensureRoleExists_spec (db : DB) (n : String) (p : Permissions) :
    (ensureRoleExists db n p).1.name = n ∧
    (ensureRoleExists db n p).1 ∈ (ensureRoleExists db n p).2.roles ∧
    (ensureRoleExists db n p).2.users = db.users ∧
    (ensureRoleExists db n p).2.userRoles = db.userRoles ∧
    (ensureRoleExists db n p).2.companies = db.companies ∧
    (ensureRoleExists db n p).2.nextUserId = db.nextUserId ∧
    (ensureRoleExists db n p).2.nextCompanyId = db.nextCompanyId ∧
    (∀ r ∈ db.roles, r ∈ (ensureRoleExists db n p).2.roles) := by
  unfold ensureRoleExists
  cases hf : db.roles.find? (fun r => r.name == n) with
  | none =>
    refine ⟨rfl, by simp, rfl, rfl, rfl, rfl, rfl, ?_⟩
    intro r hr
    simp [hr]
  | some r =>
    have hname := List.find?_some hf
    have hmem := List.mem_of_find?_eq_some hf
    simp_all

/-- A registration succeeds (status 200) exactly when the username is not
taken. -/
theorem register_success_iff (db : DB) (b : RegisterBody) :
    (register db b).1.status = 200 ↔
      db.users.find? (fun u => u.username == b.username) = none := by
  cases hf : db.users.find? (fun u => u.username == b.username) with
  | none => simp [register, hf]
  | some u => simp [register, hf]

/-- A successful registration appends exactly one fresh company row, whose id
is the serial counter's current value; the supplied name is stored verbatim
and never compared with existing rows. -/
theorem register_success_companies (db : DB) (b : RegisterBody)
    (hfind : db.users.find? (fun u => u.username == b.username) = none) :
    (register db b).2.companies =
      db.companies ++ [⟨db.nextCompanyId, b.companyName⟩] ∧
    (register db b).2.nextCompanyId = db.nextCompanyId + 1 := by
  have h1 := ensureRoleExists_spec
    { db with companies := db.companies ++ [⟨db.nextCompanyId, b.companyName⟩],
              nextCompanyId := db.nextCompanyId + 1 } "admin" adminPermissions
  have h2 := ensureRoleExists_spec
    (ensureRoleExists
      { db with companies := db.companies ++ [⟨db.nextCompanyId, b.companyName⟩],
                nextCompanyId := db.nextCompanyId + 1 } "admin"
      adminPermissions).2 "user" userPermissions
  simp only [register, hfind]
  constructor
  · rw [h2.2.2.2.2.1, h1.2.2.2.2.1]
  · rw [h2.2.2.2.2.2.2.1, h1.2.2.2.2.2.2.1]

/-- The successful branch of `register` is the composition of the named
steps. -/
theorem register_none_db (db : DB) (b : RegisterBody)
    (hfind : db.users.find? (fun u => u.username == b.username) = none) :
    (register db b).2 = regDb5 db b := by
  unfold register
  rw [hfind]
  rfl

/-- The role-bootstrap steps do not touch the `users` table. -/
theorem regDb3_users (db : DB) (b : RegisterBody) :
    (regDb3 db b).users = db.users := by
  have h2 := ensureRoleExists_spec (regDb2 db b) "user" userPermissions
  have h1 := ensureRoleExists_spec (regDb1 db b) "admin" adminPermissions
  show (ensureRoleExists (regDb2 db b) "user" userPermissions).2.users = db.users
  rw [h2.2.2.1]
  show (ensureRoleExists (regDb1 db b) "admin" adminPermissions).2.users = db.users
  rw [h1.2.2.1]
  rfl

/-- The role-bootstrap steps do not touch the `user_roles` table. -/
theorem regDb3_userRoles (db : DB) (b : RegisterBody) :
    (regDb3 db b).userRoles = db.userRoles := by
  have h2 := ensureRoleExists_spec (regDb2 db b) "user" userPermissions
  have h1 := ensureRoleExists_spec (regDb1 db b) "admin" adminPermissions
  show (ensureRoleExists (regDb2 db b) "user" userPermissions).2.userRoles =
    db.userRoles
  rw [h2.2.2.2.1]
  show (ensureRoleExists (regDb1 db b) "admin" adminPermissions).2.userRoles =
    db.userRoles
  rw [h1.2.2.2.1]
  rfl

/-- The role-bootstrap steps keep the freshly extended `companies` table. -/
theorem regDb3_companies (db : DB) (b : RegisterBody) :
    (regDb3 db b).companies = db.companies ++ [regCompany db b] := by
  have h2 := ensureRoleExists_spec (regDb2 db b) "user" userPermissions
  have h1 := ensureRoleExists_spec (regDb1 db b) "admin" adminPermissions
  show (ensureRoleExists (regDb2 db b) "user" userPermissions).2.companies =
    db.companies ++ [regCompany db b]
  rw [h2.2.2.2.2.1]
  show (ensureRoleExists (regDb1 db b) "admin" adminPermissions).2.companies =
    db.companies ++ [regCompany db b]
  rw [h1.2.2.2.2.1]
  rfl

/-- The role-bootstrap steps preserve the user id counter. -/
theorem regDb3_nextUserId (db : DB) (b : RegisterBody) :
    (regDb3 db b).nextUserId = db.nextUserId := by
  have h2 := ensureRoleExists_spec (regDb2 db b) "user" userPermissions
  have h1 := ensureRoleExists_spec (regDb1 db b) "admin" adminPermissions
  show (ensureRoleExists (regDb2 db b) "user" userPermissions).2.nextUserId =
    db.nextUserId
  rw [h2.2.2.2.2.2.1]
  show (ensureRoleExists (regDb1 db b) "admin" adminPermissions).2.nextUserId =
    db.nextUserId
  rw [h1.2.2.2.2.2.1]
  rfl

/-- The role-bootstrap steps preserve the (already bumped) company id
counter. -/
theorem regDb3_nextCompanyId (db : DB) (b : RegisterBody) :
    (regDb3 db b).nextCompanyId = db.nextCompanyId + 1 := by
  have h2 := ensureRoleExists_spec (regDb2 db b) "user" userPermissions
  have h1 := ensureRoleExists_spec (regDb1 db b) "admin" adminPermissions
  show (ensureRoleExists (regDb2 db b) "user" userPermissions).2.nextCompanyId =
    db.nextCompanyId + 1
  rw [h2.2.2.2.2.2.2.1]
  show (ensureRoleExists (regDb1 db b) "admin" adminPermissions).2.nextCompanyId =
    db.nextCompanyId + 1
  rw [h1.2.2.2.2.2.2.1]
  rfl

/-- The inserted user row, explicitly. -/
theorem regNewUser_eq (db : DB) (b : RegisterBody) :
    regNewUser db b =
      ⟨db.nextUserId, b.username, hashPassword b.password, db.nextCompanyId⟩ := by
  unfold regNewUser
  rw [regDb3_nextUserId]
  rfl

/-- On a well-formed state the fresh company's user list, measured right
after the user insert, is exactly the new user: no pre-existing user can
reference the fresh company id. -/
theorem regCompanyUsers_eq (db : DB) (b : RegisterBody)
    (hwf : ∀ u ∈ db.users, u.companyId < db.nextCompanyId) :
    regCompanyUsers db b = [regNewUser db b] := by
  unfold regCompanyUsers regDb4
  simp only [List.filter_append, regDb3_users]
  have hcid : (regCompany db b).id = db.nextCompanyId := rfl
  rw [hcid, filter_companyId_nil db.users db.nextCompanyId hwf]
  simp [regNewUser_eq]

/-- The `companyUsers.length === 1` test therefore always selects the admin
role. -/
theorem regRoleToAssign_eq (db : DB) (b : RegisterBody)
    (hwf : ∀ u ∈ db.users, u.companyId < db.nextCompanyId) :
    regRoleToAssign db b = regAdminRole db b := by
  unfold regRoleToAssign
  rw [regCompanyUsers_eq db b hwf]
  simp

/-- The admin role returned by the bootstrap is named "admin". -/
theorem regAdminRole_name (db : DB) (b : RegisterBody) :
    (regAdminRole db b).name = "admin" :=
  (ensureRoleExists_spec (regDb1 db b) "admin" adminPermissions).1

/-- The admin role is stored in the final state's `roles` table. -/
theorem regAdminRole_mem (db : DB) (b : RegisterBody) :
    regAdminRole db b ∈ (regDb5 db b).roles := by
  have h1 := ensureRoleExists_spec (regDb1 db b) "admin" adminPermissions
  have h2 := ensureRoleExists_spec (regDb2 db b) "user" userPermissions
  have : regAdminRole db b ∈ (regDb3 db b).roles :=
    h2.2.2.2.2.2.2.2 (regAdminRole db b) h1.2.1
  exact this

/-- The final `user_roles` table: the old links plus the one assigning the
admin role to the fresh user id. -/
theorem regDb5_userRoles (db : DB) (b : RegisterBody)
    (hwf : ∀ u ∈ db.users, u.companyId < db.nextCompanyId) :
    (regDb5 db b).userRoles =
      db.userRoles ++ [⟨db.nextUserId, (regAdminRole db b).id⟩] := by
  show (regDb4 db b).userRoles ++
      [⟨(regNewUser db b).id, (regRoleToAssign db b).id⟩] =
    db.userRoles ++ [⟨db.nextUserId, (regAdminRole db b).id⟩]
  rw [regRoleToAssign_eq db b hwf, regNewUser_eq]
  show (regDb3 db b).userRoles ++ _ = _
  rw [regDb3_userRoles]

/-- The final `users` table: the old rows plus the fresh user. -/
theorem regDb5_users (db : DB) (b : RegisterBody) :
    (regDb5 db b).users = db.users ++ [regNewUser db b] := by
  show (regDb4 db b).users = db.users ++ [regNewUser db b]
  show (regDb3 db b).users ++ [regNewUser db b] = db.users ++ [regNewUser db b]
  rw [regDb3_users]

/-- The final `companies` table: the old rows plus the fresh company. -/
theorem regDb5_companies (db : DB) (b : RegisterBody) :
    (regDb5 db b).companies = db.companies ++ [regCompany db b] := by
  show (regDb3 db b).companies = db.companies ++ [regCompany db b]
  exact regDb3_companies db b

/-- The final company id counter. -/
theorem regDb5_nextCompanyId (db : DB) (b : RegisterBody) :
    (regDb5 db b).nextCompanyId = db.nextCompanyId + 1 := by
  show (regDb3 db b).nextCompanyId = db.nextCompanyId + 1
  exact regDb3_nextCompanyId db b

/-- The final state's `roles` table is the one produced by the bootstrap. -/
theorem regDb5_roles (db : DB) (b : RegisterBody) :
    (regDb5 db b).roles = (regDb3 db b).roles := rfl

/-- Every handler-reachable registration preserves `WF`. -/
theorem WF_register (db : DB) (b : RegisterBody) (h : WF db) :
    WF (register db b).2 := by
  cases hf : db.users.find? (fun u => u.username == b.username) with
  | some u =>
    have : (register db b).2 = db := by simp [register, hf]
    rw [this]
    exact h
  | none =>
    rw [register_none_db db b hf]
    constructor
    · intro c hc
      rw [regDb5_companies] at hc
      rw [regDb5_nextCompanyId]
      rcases List.mem_append.mp hc with hold | hnew
      · exact Nat.lt_succ_of_lt (h.1 c hold)
      · simp only [List.mem_singleton] at hnew
        subst hnew
        exact Nat.lt_succ_self _
    · intro u hu
      rw [regDb5_users] at hu
      rw [regDb5_nextCompanyId]
      rcases List.mem_append.mp hu with hold | hnew
      · exact Nat.lt_succ_of_lt (h.2 u hold)
      · simp only [List.mem_singleton] at hnew
        subst hnew
        rw [regNewUser_eq]
        exact Nat.lt_succ_self _

/-- Invariant `WF` is preserved along any sequence of registrations. -/
theorem WF_runRegs (bs : List RegisterBody) (db : DB) (h : WF db) :
    WF (runRegs db bs) := by
  induction bs generalizing db with
  | nil => exact h
  | cons b bs ih => exact ih (register db b).2 (WF_register db b h)

/-! ## Claim C1 -/

/-- Claim C1, counterexample.  The claim states that no authorized PUT body
(including one containing a `companyId` field) modifies the stored
`companyId`.  On the code, `update(objects).set(req.body)` writes every
supplied column: a company-1 admin PUTting `\x7b companyId: 2 \x7d` onto
object 1 (stored with companyId 1) succeeds with 200 and leaves the row with
companyId 2. -/
theorem putObject_overwrites_companyId_cx :
    (putObject dbC1 (some aliceSession) 1 patchCompany).1.status = 200 ∧
    dbC1.objects.map (fun o => (o.id, o.companyId)) = [(1, 1)] ∧
    (putObject dbC1 (some aliceSession) 1 patchCompany).2.objects.map
      (fun o => (o.id, o.companyId)) = [(1, 2)] :=
  ⟨rfl, by decide, by decide⟩

/-- Claim C1, amended.  `POST /api/objects` stores
`companyId = caller.companyId` (any client-supplied `companyId`/`createdBy`
in the body is overwritten by the spread), and `PUT /api/objects/:id` leaves
every stored `companyId` unchanged PROVIDED the patch body carries no
`companyId` field. -/
theorem companyId_from_caller_and_stable_without_patch_field
    (db : DB) (u : SessionUser) (b : InsertObjectBody) (now i : Nat)
    (p : PatchBody)
    (hc : u.roles.any (fun r => r.permissions.create || r.permissions.all)
      = true)
    (hp : p.companyId = none) :
    (postObjects db (some u) b now).2.objects =
      db.objects ++ [{ id := db.nextObjectId, name := b.name, type := b.type,
                       description := b.description, fields := b.fields,
                       createdBy := u.id, companyId := u.companyId,
                       createdAt := now }] ∧
    (putObject db (some u) i p).2.objects.map (fun o => (o.id, o.companyId)) =
      db.objects.map (fun o => (o.id, o.companyId)) := by
  constructor
  · simp [postObjects, hc]
  · have hmap : (db.objects.map
        (fun o => if o.id == i then applyPatch p o else o)).map
          (fun o => (o.id, o.companyId)) =
        db.objects.map (fun o => (o.id, o.companyId)) := by
      rw [List.map_map]
      apply List.map_congr_left
      intro o _
      by_cases ho : o.id = i
      · simp [ho, applyPatch, hp]
      · simp [Function.comp, ho]
    cases hg : u.roles.any (fun r => r.permissions.update || r.permissions.all)
      with
    | false => simp [putObject, hg]
    | true =>
      cases hf : db.objects.find?
          (fun o => o.id == i && o.companyId == u.companyId) with
      | none => simp [putObject, hg, hf]
      | some o => simpa [putObject, hg, hf] using hmap

/-- Claim C1, witness for the amended theorem at a concrete input. -/
theorem companyId_from_caller_witness :
    (postObjects dbC1 (some aliceSession) insertBodySpoof 7).2.objects =
      dbC1.objects ++ [{ id := 2, name := "N", type := "T",
                         description := none, fields := [], createdBy := 1,
                         companyId := 1, createdAt := 7 }] ∧
    (putObject dbC1 (some aliceSession) 1 patchNameOnly).2.objects.map
      (fun o => (o.id, o.companyId)) =
      dbC1.objects.map (fun o => (o.id, o.companyId)) :=
  companyId_from_caller_and_stable_without_patch_field dbC1 aliceSession
    insertBodySpoof 7 1 patchNameOnly (by decide) rfl

/-! ## Claim C2 -/

/-- Claim C2, failing-input evaluation.  The company-scope predicate is NOT
conjoined with the search filter: drizzle's `.where` assigns the builder's
single where slot, so the `search` filter REPLACES the company filter.  A
company-1 caller querying `?search=acme` against a catalog holding a matching
company-2 object receives that foreign object (the response is the full
cross-company match list, default-ordered by `createdAt` descending). -/
theorem search_filter_drops_company_scope :
    (getObjects dbC2 (some searcherSession) qSearchAcme).status = 200 ∧
    (getObjectsRows dbC2 searcherSession qSearchAcme).map
      (fun o => (o.id, o.companyId)) = [(2, 2), (1, 1)] ∧
    (getObjectsRows dbC2 searcherSession qSearchAcme).any
      (fun o => !(o.companyId == searcherSession.companyId)) = true :=
  ⟨rfl, by decide, by decide⟩

/-! ## Claim C3 -/

/-- Claim C3, counterexample.  `GET /api/users` (the auth.ts handler, which
shadows the routes.ts duplicate) spreads the raw `users` rows into the
response without stripping `password`: the successful (200) response for a
company admin contains a `password` property — the stored hash. -/
theorem getUsers_response_contains_password_cx :
    (getUsersRoute dbC3 (some carolSession)).status = 200 ∧
    JsonVal.hasKey "password" (getUsersRoute dbC3 (some carolSession)).body
      = true :=
  ⟨rfl, by decide⟩

/-- Claim C3, amended.  `GET /api/user`, `POST /api/auth/login` and
`POST /api/auth/register` never emit a `password` property (success or
failure), but `GET /api/users` does leak it (see the counterexample). -/
theorem auth_responses_strip_password (u : SessionUser) (db : DB)
    (un pw : String) (b : RegisterBody) :
    JsonVal.hasKey "password" (getUser (some u)).body = false ∧
    JsonVal.hasKey "password" (login db un pw).body = false ∧
    JsonVal.hasKey "password" (register db b).1.body = false := by
  refine ⟨?_, ?_, ?_⟩
  · show (JsonList.hasKeyL "password" (rolesToJsonList u.roles) || false)
      = false
    rw [rolesJsonList_no_password, Bool.false_or]
  · cases hf : db.users.find? (fun x => x.username == un) with
    | none =>
      simp only [login, hf]
      rfl
    | some x =>
      cases hpw : x.password == hashPassword pw with
      | false =>
        simp [login, hf, hpw]
        rfl
      | true =>
        simp +decide [login, hf, hpw, rolesJsonList_no_password,
          JsonVal.hasKey, JsonProps.hasKeyP, JsonList.hasKeyL,
          JsonProps.removeKey, JsonProps.append, userRowProps]
  · cases hf : db.users.find? (fun x => x.username == b.username) with
    | none =>
      simp +decide [register, hf, rolesJsonList_no_password,
        JsonVal.hasKey, JsonProps.hasKeyP, JsonList.hasKeyL,
        JsonProps.removeKey, JsonProps.append, userRowProps]
    | some x =>
      simp only [register, hf]
      rfl

/-! ## Claim C4 -/

/-- Claim C4.  For a caller holding the update and delete permissions,
`PUT` and `DELETE /api/objects/:id` against an id that does not exist, or
that belongs to an object of a different company, both return exactly
404 `\x7b message: "Object not found" \x7d` with the state unchanged — never
403, and the two failure cases are indistinguishable (every instance yields
this one response). -/
theorem cross_tenant_put_delete_not_found (db : DB) (u : SessionUser)
    (i : Nat) (p : PatchBody)
    (hup : u.roles.any (fun r => r.permissions.update || r.permissions.all)
      = true)
    (hdel : u.roles.any (fun r => r.permissions.delete || r.permissions.all)
      = true)
    (hmiss : ∀ o ∈ db.objects, o.id = i → o.companyId ≠ u.companyId) :
    putObject db (some u) i p =
      ({ status := 404, body := msgBody "Object not found" }, db) ∧
    deleteObject db (some u) i =
      ({ status := 404, body := msgBody "Object not found" }, db) := by
  have hfind : db.objects.find?
      (fun o => o.id == i && o.companyId == u.companyId) = none := by
    rw [List.find?_eq_none]
    intro o ho
    simp only [Bool.and_eq_true, beq_iff_eq, not_and]
    intro h1 h2
    exact hmiss o ho h1 h2
  constructor
  · simp [putObject, hup, hfind]
  · simp [deleteObject, hdel, hfind]

/-- Claim C4, witness: company B's caller (with update/delete permission)
targeting company A's object id 5 gets the 404 response from both verbs. -/
theorem cross_tenant_put_delete_not_found_witness :
    putObject dbC4 (some bobBSession) 5 patchNameOnly =
      ({ status := 404, body := msgBody "Object not found" }, dbC4) ∧
    deleteObject dbC4 (some bobBSession) 5 =
      ({ status := 404, body := msgBody "Object not found" }, dbC4) :=
  cross_tenant_put_delete_not_found dbC4 bobBSession 5 patchNameOnly
    (by decide) (by decide) (by decide)

/-! ## Claim C5 -/

/-- Claim C5, counterexample.  The spec's own scenario: after
`register("alice", "Acme")` the subsequent `register("bob", "Acme")` — the
only sense in which a later registration targets "that same company" — does
NOT grant bob the role "user": bob lands in a second, distinct company row
(also named "Acme") and is granted role 1, which is named "admin".  The
claim's literal "subsequent user registered in that same company" case is
unreachable through registration (registration never joins an existing
company row). -/
theorem second_same_name_registration_gets_admin_cx :
    (register st1 regBob).1.status = 200 ∧
    st2.companies = [⟨1, "Acme"⟩, ⟨2, "Acme"⟩] ∧
    st2.users.map (fun u => (u.id, u.username, u.companyId)) =
      [(1, "alice", 1), (2, "bob", 2)] ∧
    st2.userRoles = [⟨1, 1⟩, ⟨2, 1⟩] ∧
    st2.roles.map (fun r => (r.id, r.name)) = [(1, "admin"), (2, "user")] ∧
    getUserRoles st2 2 = [adminRoleRow] ∧
    (getUserRoles st2 2).all (fun r => r.name != "user") = true := by
  refine ⟨rfl, by decide, by decide, by decide, by decide, by decide,
    by decide⟩

/-- Claim C5, amended.  After any sequence of registrations from a
well-formed state, every further successful registration assigns the fresh
user a role named "admin" (the admin branch of `companyUsers.length === 1`),
and that user is the sole user of the fresh company: the "user"-role branch
is unreachable through registration. -/
theorem registration_always_grants_admin (dbInit : DB)
    (bs : List RegisterBody) (b : RegisterBody) (hwf : WF dbInit)
    (hs : (register (runRegs dbInit bs) b).1.status = 200) :
    ∃ adminR : Role,
      adminR.name = "admin" ∧
      adminR ∈ (register (runRegs dbInit bs) b).2.roles ∧
      (register (runRegs dbInit bs) b).2.userRoles =
        (runRegs dbInit bs).userRoles ++
          [⟨(runRegs dbInit bs).nextUserId, adminR.id⟩] ∧
      (register (runRegs dbInit bs) b).2.users.filter
          (fun u => u.companyId == (runRegs dbInit bs).nextCompanyId) =
        [⟨(runRegs dbInit bs).nextUserId, b.username, hashPassword b.password,
          (runRegs dbInit bs).nextCompanyId⟩] := by
  have hwf' : WF (runRegs dbInit bs) := WF_runRegs bs dbInit hwf
  have hfind := (register_success_iff (runRegs dbInit bs) b).mp hs
  refine ⟨regAdminRole (runRegs dbInit bs) b,
    regAdminRole_name (runRegs dbInit bs) b, ?_, ?_, ?_⟩
  · rw [register_none_db (runRegs dbInit bs) b hfind]
    exact regAdminRole_mem (runRegs dbInit bs) b
  · rw [register_none_db (runRegs dbInit bs) b hfind]
    exact regDb5_userRoles (runRegs dbInit bs) b hwf'.2
  · rw [register_none_db (runRegs dbInit bs) b hfind, regDb5_users,
      List.filter_append, filter_companyId_nil (runRegs dbInit bs).users
        (runRegs dbInit bs).nextCompanyId hwf'.2]
    simp [regNewUser_eq]

/-- Claim C5, witness: the amended theorem applied to the concrete Acme
run (`bs = [regAlice]`, then bob registers). -/
theorem registration_always_grants_admin_witness :
    WF db0 ∧ (register (runRegs db0 [regAlice]) regBob).1.status = 200 ∧
    ∃ adminR : Role,
      adminR.name = "admin" ∧
      adminR ∈ (register (runRegs db0 [regAlice]) regBob).2.roles ∧
      (register (runRegs db0 [regAlice]) regBob).2.userRoles =
        (runRegs db0 [regAlice]).userRoles ++
          [⟨(runRegs db0 [regAlice]).nextUserId, adminR.id⟩] ∧
      (register (runRegs db0 [regAlice]) regBob).2.users.filter
          (fun u => u.companyId == (runRegs db0 [regAlice]).nextCompanyId) =
        [⟨(runRegs db0 [regAlice]).nextUserId, regBob.username,
          hashPassword regBob.password,
          (runRegs db0 [regAlice]).nextCompanyId⟩] :=
  ⟨⟨by decide, by decide⟩, by decide,
    registration_always_grants_admin db0 [regAlice] regBob ⟨by decide, by decide⟩
      (by decide)⟩

/-! ## Claim C6 -/

/-- Claim C6, counterexample.  An unauthenticated `GET /api/roles` does
reach the handler registered inside `setupAuth` (it precedes the `/api/*`
middleware) and is answered 403, not 401. -/
theorem unauthenticated_getRoles_403_cx :
    (handleRequest db0 none 0 .listRoles).1.status = 403 ∧
    (handleRequest db0 none 0 .listRoles).1.status ≠ 401 :=
  ⟨rfl, by decide⟩

/-- Claim C6, amended.  Unauthenticated requests to the object routes (which
sit behind the `/api/*` middleware) are rejected 401 "Unauthorized", and
`GET /api/user` answers 401 "Not authenticated" from its own handler; but
the role/user management handlers registered inside `setupAuth` precede the
middleware, so unauthenticated `GET /api/roles`, `GET /api/users` and
`POST /api/users/:userId/roles` execute and answer 403 "Forbidden", and
`POST /api/auth/logout` answers 200. -/
theorem unauthenticated_request_responses (db : DB) (now : Nat)
    (q : ObjectsQuery) (b : InsertObjectBody) (i j uid rid : Nat)
    (p : PatchBody) :
    (handleRequest db none now (.listObjects q)).1 =
      ⟨401, msgBody "Unauthorized"⟩ ∧
    (handleRequest db none now .listObjectTypes).1 =
      ⟨401, msgBody "Unauthorized"⟩ ∧
    (handleRequest db none now (.createObject b)).1 =
      ⟨401, msgBody "Unauthorized"⟩ ∧
    (handleRequest db none now (.updateObject i p)).1 =
      ⟨401, msgBody "Unauthorized"⟩ ∧
    (handleRequest db none now (.removeObject j)).1 =
      ⟨401, msgBody "Unauthorized"⟩ ∧
    (handleRequest db none now .currentUser).1 =
      ⟨401, msgBody "Not authenticated"⟩ ∧
    (handleRequest db none now .listRoles).1 = ⟨403, msgBody "Forbidden"⟩ ∧
    (handleRequest db none now .listUsers).1 = ⟨403, msgBody "Forbidden"⟩ ∧
    (handleRequest db none now (.assignRole uid rid)).1 =
      ⟨403, msgBody "Forbidden"⟩ ∧
    (handleRequest db none now .authLogout).1 =
      ⟨200, msgBody "Logged out successfully"⟩ :=
  ⟨rfl, rfl, rfl, rfl, rfl, rfl, rfl, rfl, rfl, rfl⟩

/-! ## Claim C7 -/

/-- Claim C7.  For each guarded mutating endpoint and its flag F (create for
POST, update for PUT, delete for DELETE): the endpoint proceeds past the
gate (status ≠ 403) exactly when some assigned role r satisfies
`r.permissions.F = true` or `r.permissions.all = true` — the effective
permission is the OR over all assigned roles — and otherwise the response is
exactly 403 `\x7b message: "Forbidden" \x7d`. -/
theorem mutation_gate_iff_or_of_role_flags (db : DB) (u : SessionUser)
    (b : InsertObjectBody) (now i j : Nat) (p : PatchBody) :
    (((postObjects db (some u) b now).1.status ≠ 403) ↔
      ∃ r ∈ u.roles, r.permissions.create = true ∨ r.permissions.all = true) ∧
    (((postObjects db (some u) b now).1 = ⟨403, msgBody "Forbidden"⟩) ↔
      ¬∃ r ∈ u.roles, r.permissions.create = true ∨ r.permissions.all = true) ∧
    (((putObject db (some u) i p).1.status ≠ 403) ↔
      ∃ r ∈ u.roles, r.permissions.update = true ∨ r.permissions.all = true) ∧
    (((putObject db (some u) i p).1 = ⟨403, msgBody "Forbidden"⟩) ↔
      ¬∃ r ∈ u.roles, r.permissions.update = true ∨ r.permissions.all = true) ∧
    (((deleteObject db (some u) j).1.status ≠ 403) ↔
      ∃ r ∈ u.roles, r.permissions.delete = true ∨ r.permissions.all = true) ∧
    (((deleteObject db (some u) j).1 = ⟨403, msgBody "Forbidden"⟩) ↔
      ¬∃ r ∈ u.roles, r.permissions.delete = true ∨ r.permissions.all = true)
    := by
  have hexc : (∃ r ∈ u.roles,
      r.permissions.create = true ∨ r.permissions.all = true) ↔
      u.roles.any (fun r => r.permissions.create || r.permissions.all)
        = true := by
    simp [List.any_eq_true]
  have hexu : (∃ r ∈ u.roles,
      r.permissions.update = true ∨ r.permissions.all = true) ↔
      u.roles.any (fun r => r.permissions.update || r.permissions.all)
        = true := by
    simp [List.any_eq_true]
  have hexd : (∃ r ∈ u.roles,
      r.permissions.delete = true ∨ r.permissions.all = true) ↔
      u.roles.any (fun r => r.permissions.delete || r.permissions.all)
        = true := by
    simp [List.any_eq_true]
  refine ⟨?_, ?_, ?_, ?_, ?_, ?_⟩
  · rw [hexc]
    cases hg : u.roles.any (fun r => r.permissions.create || r.permissions.all)
      with
    | false => simp [postObjects, hg]
    | true => simp [postObjects, hg]
  · rw [hexc]
    cases hg : u.roles.any (fun r => r.permissions.create || r.permissions.all)
      with
    | false => simp [postObjects, hg]
    | true => simp [postObjects, hg, Resp.mk.injEq]
  · rw [hexu]
    cases hg : u.roles.any (fun r => r.permissions.update || r.permissions.all)
      with
    | false => simp [putObject, hg]
    | true =>
      cases hf : db.objects.find?
          (fun o => o.id == i && o.companyId == u.companyId) with
      | none => simp [putObject, hg, hf]
      | some o =>
        cases hf2 : (db.objects.map
            (fun o => if o.id = i then applyPatch p o else o)).find?
              (fun o => o.id == i) with
        | none => simp [putObject, hg, hf, hf2, -List.find?_map]
        | some w => simp [putObject, hg, hf, hf2, -List.find?_map]
  · rw [hexu]
    cases hg : u.roles.any (fun r => r.permissions.update || r.permissions.all)
      with
    | false => simp [putObject, hg]
    | true =>
      cases hf : db.objects.find?
          (fun o => o.id == i && o.companyId == u.companyId) with
      | none => simp [putObject, hg, hf, Resp.mk.injEq]
      | some o =>
        cases hf2 : (db.objects.map
            (fun o => if o.id = i then applyPatch p o else o)).find?
              (fun o => o.id == i) with
        | none => simp [putObject, hg, hf, hf2, Resp.mk.injEq, -List.find?_map]
        | some w => simp [putObject, hg, hf, hf2, Resp.mk.injEq, -List.find?_map]
  · rw [hexd]
    cases hg : u.roles.any (fun r => r.permissions.delete || r.permissions.all)
      with
    | false => simp [deleteObject, hg]
    | true =>
      cases hf : db.objects.find?
          (fun o => o.id == j && o.companyId == u.companyId) with
      | none => simp [deleteObject, hg, hf]
      | some o => simp [deleteObject, hg, hf]
  · rw [hexd]
    cases hg : u.roles.any (fun r => r.permissions.delete || r.permissions.all)
      with
    | false => simp [deleteObject, hg]
    | true =>
      cases hf : db.objects.find?
          (fun o => o.id == j && o.companyId == u.companyId) with
      | none => simp [deleteObject, hg, hf, Resp.mk.injEq]
      | some o => simp [deleteObject, hg, hf, Resp.mk.injEq]

/-! ## Claim C8 -/

/-- Claim C8.  The admin-only endpoints consult ONLY the role name: they
succeed exactly when some assigned role is literally named "admin"
(permission flags, `all` included, are never consulted), and otherwise
answer exactly 403 `\x7b message: "Forbidden" \x7d`; a caller all of whose
roles carry `all = true` but none named "admin" (`superSession`) is
rejected. -/
theorem admin_gate_checks_name_only (db : DB) (u : SessionUser)
    (uid rid : Nat) :
    (((getRolesRoute db (some u)).status = 200) ↔
      ∃ r ∈ u.roles, r.name = "admin") ∧
    (((getRolesRoute db (some u)) = ⟨403, msgBody "Forbidden"⟩) ↔
      ¬∃ r ∈ u.roles, r.name = "admin") ∧
    (((getUsersRoute db (some u)).status = 200) ↔
      ∃ r ∈ u.roles, r.name = "admin") ∧
    (((getUsersRoute db (some u)) = ⟨403, msgBody "Forbidden"⟩) ↔
      ¬∃ r ∈ u.roles, r.name = "admin") ∧
    ((∃ r ∈ u.roles, r.name = "admin") ∨
      (assignRoleRoute db (some u) uid rid).1 = ⟨403, msgBody "Forbidden"⟩) ∧
    ((getRolesRoute db (some superSession)) = ⟨403, msgBody "Forbidden"⟩ ∧
      (getUsersRoute db (some superSession)) = ⟨403, msgBody "Forbidden"⟩ ∧
      (assignRoleRoute db (some superSession) uid rid).1 =
        ⟨403, msgBody "Forbidden"⟩ ∧
      superSession.roles.all (fun r => r.permissions.all) = true) := by
  have hex : (∃ r ∈ u.roles, r.name = "admin") ↔
      u.roles.any (fun r => r.name == "admin") = true := by
    simp [List.any_eq_true]
  refine ⟨?_, ?_, ?_, ?_, ?_, ?_⟩
  · rw [hex]
    cases ha : u.roles.any (fun r => r.name == "admin") with
    | false => simp [getRolesRoute, sessionHasAdminRole, ha]
    | true => simp [getRolesRoute, sessionHasAdminRole, ha]
  · rw [hex]
    cases ha : u.roles.any (fun r => r.name == "admin") with
    | false => simp [getRolesRoute, sessionHasAdminRole, ha]
    | true => simp [getRolesRoute, sessionHasAdminRole, ha, Resp.mk.injEq]
  · rw [hex]
    cases ha : u.roles.any (fun r => r.name == "admin") with
    | false => simp [getUsersRoute, ha]
    | true => simp [getUsersRoute, ha]
  · rw [hex]
    cases ha : u.roles.any (fun r => r.name == "admin") with
    | false => simp [getUsersRoute, ha]
    | true => simp [getUsersRoute, ha, Resp.mk.injEq]
  · cases ha : u.roles.any (fun r => r.name == "admin") with
    | false =>
      right
      cases hfind : db.users.find? (fun x => x.id == uid) with
      | none => simp [assignRoleRoute, ha, hfind]
      | some t => simp [assignRoleRoute, ha, hfind]
    | true =>
      left
      exact hex.mpr ha
  · refine ⟨rfl, rfl, ?_, by decide⟩
    cases hfind : db.users.find? (fun x => x.id == uid) with
    | none => simp +decide [assignRoleRoute, superSession, superRole, hfind]
    | some t => simp +decide [assignRoleRoute, superSession, superRole, hfind]

/-! ## Claim C9 -/

/-- Claim C9.  A successful registration appends a brand-new company row
(id = current counter value, name stored verbatim, never matched against
existing rows, whose ids are all strictly smaller); right after the role
assignment the fresh user is the sole user of that company; and a second
successful registration — with any companyName, identical or not — appends a
second, distinct row (id = counter + 1). -/
theorem register_creates_fresh_company (db : DB) (b : RegisterBody)
    (hwf : WF db) (hs : (register db b).1.status = 200) :
    (register db b).2.companies =
      db.companies ++ [⟨db.nextCompanyId, b.companyName⟩] ∧
    (∀ c ∈ db.companies, c.id ≠ db.nextCompanyId) ∧
    (register db b).2.users.filter
        (fun u => u.companyId == db.nextCompanyId) =
      [⟨db.nextUserId, b.username, hashPassword b.password,
        db.nextCompanyId⟩] ∧
    (register db b).2.nextCompanyId = db.nextCompanyId + 1 ∧
    (∀ b2 : RegisterBody, (register (register db b).2 b2).1.status = 200 →
      (register (register db b).2 b2).2.companies =
        (db.companies ++ [⟨db.nextCompanyId, b.companyName⟩]) ++
          [⟨db.nextCompanyId + 1, b2.companyName⟩]) := by
  have hfind := (register_success_iff db b).mp hs
  have hcomp := register_success_companies db b hfind
  refine ⟨hcomp.1, ?_, ?_, hcomp.2, ?_⟩
  · intro c hc
    exact Nat.ne_of_lt (hwf.1 c hc)
  · rw [register_none_db db b hfind, regDb5_users, List.filter_append,
      filter_companyId_nil db.users db.nextCompanyId hwf.2]
    simp [regNewUser_eq]
  · intro b2 hs2
    have hfind2 := (register_success_iff (register db b).2 b2).mp hs2
    have hcomp2 := register_success_companies (register db b).2 b2 hfind2
    rw [hcomp2.1, hcomp.1, hcomp.2]

/-- Claim C9, witness: the two concrete Acme registrations. -/
theorem register_creates_fresh_company_witness :
    WF st1 ∧ (register st1 regBob).1.status = 200 ∧
    ((register st1 regBob).2.companies =
      st1.companies ++ [⟨st1.nextCompanyId, regBob.companyName⟩] ∧
    (∀ c ∈ st1.companies, c.id ≠ st1.nextCompanyId) ∧
    (register st1 regBob).2.users.filter
        (fun u => u.companyId == st1.nextCompanyId) =
      [⟨st1.nextUserId, regBob.username, hashPassword regBob.password,
        st1.nextCompanyId⟩] ∧
    (register st1 regBob).2.nextCompanyId = st1.nextCompanyId + 1 ∧
    (∀ b2 : RegisterBody, (register (register st1 regBob).2 b2).1.status = 200 →
      (register (register st1 regBob).2 b2).2.companies =
        (st1.companies ++ [⟨st1.nextCompanyId, regBob.companyName⟩]) ++
          [⟨st1.nextCompanyId + 1, b2.companyName⟩])) :=
  ⟨⟨by decide, by decide⟩, by decide,
    register_creates_fresh_company st1 regBob ⟨by decide, by decide⟩
      (by decide)⟩

/-! ## Claim C10 -/

/-- Claim C10.  Registering an already-taken username answers
400 `\x7b message: "Username already exists" \x7d` and leaves the entire
database state unchanged (no Company, User, Role or UserRole row is
created). -/
theorem duplicate_username_register_rejected (db : DB) (b : RegisterBody)
    (h : ∃ u ∈ db.users, u.username = b.username) :
    register db b =
      ({ status := 400, body := msgBody "Username already exists" }, db) := by
  cases hf : db.users.find? (fun x => x.username == b.username) with
  | none =>
    exfalso
    rw [List.find?_eq_none] at hf
    obtain ⟨u, hu, he⟩ := h
    exact hf u hu (by simp [he])
  | some x => simp [register, hf]

/-- Claim C10, witness: re-registering carol's username. -/
theorem duplicate_username_register_rejected_witness :
    register dbC3 regCarolDup =
      ({ status := 400, body := msgBody "Username already exists" }, dbC3) :=
  duplicate_username_register_rejected dbC3 regCarolDup
    ⟨carolUser, by decide, rfl⟩

end CRM
